import Mathlib

/-!
Verification of the FT817 serial CAT client (`ft817.js`).

The program is a command/response protocol client: it builds fixed 5-byte
command frames, writes them to a serial channel, reconfigures a byte-length
re-framer before each exchange, awaits one reply chunk (or a 1000 ms
timeout resolving the sentinel `false`), and decodes the hex-rendered
reply into typed results.

The embedding below models the session as explicit state
(`FT817`: the stored command and the re-framer's chunk length) plus a
trace of channel events (`ChanEvent`), and the channel's behaviour during
one exchange as an environment `Option (List Nat)`: `some chunk` means the
re-framer delivers `chunk` before the timeout, `none` means the timeout
fires first.  The helper modules that the repository keeps outside the
main file (`conversions.js`, `frequencies.js`, `modes.js`) are modelled
from the specification where noted.
-/

/-! ## Codec helpers -/

/-- One byte rendered as two lowercase hex characters, as Node's
`Buffer.toString('hex')` renders each byte.  `Nat.digitChar` maps
0–9 to `'0'`–`'9'` and 10–15 to `'a'`–`'f'`, which is exactly the
lowercase hex digit alphabet. -/
def byteHex (b : Nat) : String :=
  String.mk [Nat.digitChar (b / 16 % 16), Nat.digitChar (b % 16)]

/-- A byte list rendered as a lowercase hex string
(`received_data.toString('hex')` in `executeCommand`). -/
def hexRender : List Nat → String
  | [] => ""
  | b :: bs => byteHex b ++ hexRender bs

/-- Value of one hex character, if it is one. -/
def hexCharVal (c : Char) : Option Nat :=
  if c.isDigit then some (c.toNat - 48)
  else if 'a' ≤ c ∧ c ≤ 'f' then some (c.toNat - 87)
  else if 'A' ≤ c ∧ c ≤ 'F' then some (c.toNat - 55)
  else none

/-- Modelled from the spec: `hexByteToBinaryString` (`hexToBin` in
`conversions.js`, which is not under `src/`) parses a hex-encoded byte and
exposes it as an 8-bit pattern for bitwise inspection; it fails with a
`FormatError` on malformed hex or on any input not representing exactly
one byte.  We model the bit pattern as the byte's numeric value and the
failure as `none`. -/
def hexToBin (s : String) : Option Nat :=
  match s.data with
  | [h, l] =>
    match hexCharVal h, hexCharVal l with
    | some hv, some lv => some (16 * hv + lv)
    | _, _ => none
  | _ => none

/-- Modelled from the spec: `decimalPairToHex` (`decToHex` in
`conversions.js`, which is not under `src/`) interprets a two-character
decimal digit string as a BCD pair: the high nibble is the tens digit and
the low nibble the units digit.  The spec's `FormatError` on malformed
input cannot occur on the zero-padded digit strings `setFrequency` feeds
it; that branch is modelled as 0. -/
def decToHex (s : String) : Nat :=
  match s.data with
  | [t, u] => 16 * (t.toNat - 48) + (u.toNat - 48)
  | _ => 0

/-- JavaScript's `String.prototype.charAt`: the one-character string at
index `i`, or the empty string out of range. -/
def charAt (s : String) (i : Nat) : String :=
  match s.data.get? i with
  | some c => String.mk [c]
  | none => ""

/-- JavaScript's `String.prototype.substring(i, j)` for ASCII strings. -/
def substr (s : String) (i j : Nat) : String :=
  String.mk ((s.data.take j).drop i)

/-- JavaScript's one-argument `String.prototype.substring(i)`. -/
def substrFrom (s : String) (i : Nat) : String :=
  String.mk (s.data.drop i)

/-- JavaScript's `parseInt` restricted to the inputs this client feeds it:
parse the longest leading run of decimal digits; `none` models `NaN` when
there is no leading digit. -/
def jsParseInt (s : String) : Option Nat :=
  let ds := s.data.takeWhile Char.isDigit
  if ds.isEmpty then none
  else some (ds.foldl (fun a c => 10 * a + (c.toNat - 48)) 0)

/-- JavaScript's `String.prototype.padStart(8, '0')`. -/
def padStart8 (s : String) : String :=
  String.mk (List.replicate (8 - s.length) '0') ++ s

/-! ## Session state, channel events, exchange primitive -/

/-- One observable action on the serial channel / re-framer. -/
inductive ChanEvent where
  /-- The current re-framer is detached (`this.port.unpipe()`). -/
  | unpipe : ChanEvent
  /-- A new `ByteLength` re-framer with the given chunk size is attached
  (`this.port.pipe(new ByteLength(\x7blength\x7d))`). -/
  | pipe (len : Nat) : ChanEvent
  /-- A command frame is written to the channel (`this.port.write`). -/
  | write (frame : List Nat) : ChanEvent
  /-- The re-framer delivered one chunk before the timeout. -/
  | readChunk (chunk : List Nat) : ChanEvent
  /-- The 1000 ms timer fired before any chunk arrived. -/
  | timeoutFired : ChanEvent
deriving DecidableEq, Repr

/-- What `executeCommand`'s promise resolves to: the sentinel `false`
after the 1000 ms timeout, or the received chunk rendered as a hex
string. -/
inductive CmdResult where
  /-- The sentinel `false` resolved by the 1000 ms timeout. -/
  | noReply : CmdResult
  /-- `received_data.toString('hex')`. -/
  | reply (hex : String) : CmdResult
deriving DecidableEq, Repr

/-- Session state of the `FT817` class: the constructor-time serial
configuration, the stored executable command, and the chunk length of the
currently attached `ByteLength` re-framer. -/
structure FT817 where
  serial_port : String
  serial_speed : Nat
  /-- `this.executableCommand`; `null` at construction, modelled as `[]`
  (it is always overwritten by `setCommand` before any use). -/
  executableCommand : List Nat
  /-- Chunk length of the attached re-framer; the constructor attaches a
  1-byte `ByteLength`. -/
  parserLen : Nat
deriving DecidableEq, Repr

/-- A freshly constructed session (constructor defaults: speed 9600,
no command stored yet, 1-byte re-framer attached). -/
def initState : FT817 :=
  { serial_port := "", serial_speed := 9600, executableCommand := [], parserLen := 1 }

/-- `setResponseLength`: detach the previous `ByteLength` re-framer and
attach a new one with the given chunk length. -/
def setResponseLength (st : FT817) (byte_length : Nat) : FT817 × List ChanEvent :=
  ({ st with parserLen := byte_length }, [ChanEvent.unpipe, ChanEvent.pipe byte_length])

/-- `setCommand`: store the frame in `this.executableCommand`. -/
def setCommand (st : FT817) (command : List Nat) : FT817 :=
  { st with executableCommand := command }

/-- `getCommand`: read back the stored frame. -/
def getCommand (st : FT817) : List Nat :=
  st.executableCommand

/-- `executeCommand`: write the stored frame, then race the re-framer's
next chunk against the 1000 ms timer.  The environment says which side
wins: `some chunk` resolves the chunk's hex rendering, `none` resolves
the sentinel `false`. -/
def executeCommand (st : FT817) (env : Option (List Nat)) : CmdResult × List ChanEvent :=
  match env with
  | some chunk =>
    (CmdResult.reply (hexRender chunk), [ChanEvent.write (getCommand st), ChanEvent.readChunk chunk])
  | none =>
    (CmdResult.noReply, [ChanEvent.write (getCommand st), ChanEvent.timeoutFired])

/-- `execute`: store the frame, reconfigure the re-framer to the expected
reply length, then run `executeCommand`.  The source's `response_length`
parameter defaults to 1 when a caller passes no second argument. -/
def execute (st : FT817) (executable_command : List Nat) (response_length : Nat)
    (env : Option (List Nat)) : CmdResult × FT817 × List ChanEvent :=
  let st1 := setCommand st executable_command
  let (st2, tr1) := setResponseLength st1 response_length
  let (r, tr2) := executeCommand st2 env
  (r, st2, tr1 ++ tr2)

/-- The frames written to the channel, in order, in a trace. -/
def writesOf (tr : List ChanEvent) : List (List Nat) :=
  tr.filterMap fun e =>
    match e with
    | ChanEvent.write f => some f
    | _ => none

/-! ## Operations -/

/-- The 5-byte set-frequency frame `setFrequency` builds: the 8-digit
zero-left-padded decimal rendering of the frequency, split with `charAt`
into four 2-digit pairs, each BCD-packed by `decToHex`, then opcode
`0x01`. -/
def setFreqFrame (frequency : Nat) : List Nat :=
  let f := padStart8 (toString frequency)
  [decToHex (charAt f 0 ++ charAt f 1),
   decToHex (charAt f 2 ++ charAt f 3),
   decToHex (charAt f 4 ++ charAt f 5),
   decToHex (charAt f 6 ++ charAt f 7),
   0x01]

/-- What `setFrequency` returns: the sentinel `false` when the validity
check rejects, otherwise the padded frequency string that was set. -/
inductive SetFreqResult where
  /-- The sentinel `false`: the frequency failed `isValidRxFrequency`. -/
  | notSent : SetFreqResult
  /-- The padded frequency string returned on success. -/
  | sent (frequency : String) : SetFreqResult
deriving DecidableEq, Repr

/-- `setFrequency`.  The external validity table `frequencies.js` is not
under `src/`; it is passed as the parameter `valid`.  The source's
string-input coercion branch (`isNaN`/`parseInt`) is identity on the
numeric inputs modelled here.  `execute` is called with no second
argument, so the expected reply length is the default 1, and the reply is
awaited and then discarded. -/
def setFrequency (valid : Nat → Bool) (st : FT817) (frequency : Nat)
    (env : Option (List Nat)) : SetFreqResult × FT817 × List ChanEvent :=
  if !valid frequency then (SetFreqResult.notSent, st, [])
  else
    let f := padStart8 (toString frequency)
    let (_, st2, tr) := execute st (setFreqFrame frequency) 1 env
    (SetFreqResult.sent f, st2, tr)

/-- The decoded frequency-and-mode record `getFreqAndMode` builds.
`parseInt` results are `Option Nat` (`none` models `NaN`). -/
structure FreqAndMode where
  frequency : String
  mhzs : Option Nat
  khzs : Option Nat
  hzs : Option Nat
  mode_id : String
  mode_name : String
deriving DecidableEq, Repr

/-- `getFreqAndMode`: send `[0x00,0x00,0x00,0x00,0x03]` expecting a 5-byte
reply; on the timeout sentinel return `false` (modelled `none`), otherwise
slice the hex-rendered reply by character position.  The external mode
table `modes.js` is not under `src/`; its lookup is the parameter
`modeName` (per the spec it never fails, so it is total). -/
def getFreqAndMode (modeName : String → String) (st : FT817)
    (env : Option (List Nat)) : Option FreqAndMode × FT817 × List ChanEvent :=
  let (resp, st2, tr) := execute st [0x00, 0x00, 0x00, 0x00, 0x03] 5 env
  match resp with
  | CmdResult.noReply => (none, st2, tr)
  | CmdResult.reply r =>
    let mode_id := substrFrom r 8
    let mode_name := modeName mode_id
    let freq_full := substr r 0 8
    let mhzs := jsParseInt (substr freq_full 0 3)
    let khzs := jsParseInt (substr freq_full 3 6)
    let hzs := jsParseInt (substr freq_full 6 8)
    (some { frequency := freq_full, mhzs := mhzs, khzs := khzs, hzs := hzs,
            mode_id := mode_id, mode_name := mode_name }, st2, tr)

/-- Receiver status decoded by `getReceiverStatus`. -/
structure RxStatus where
  smeter_reading : String
  squelched : Bool
deriving DecidableEq, Repr

/-- Outcome of `getReceiverStatus`.  The source applies `hexToBin` to the
reply unconditionally — there is no `!resp` guard — so when the exchange
resolves the timeout sentinel the sentinel itself reaches the codec,
whose contract rejects any input not representing exactly one byte: a
`FormatError`-style hard fault, modelled as `fault`. -/
inductive RxOutcome where
  /-- The codec faulted (`FormatError`): no status value is produced. -/
  | fault : RxOutcome
  /-- A decoded receiver status. -/
  | status (s : RxStatus) : RxOutcome
deriving DecidableEq, Repr

/-- The decode step of `getReceiverStatus` (source lines 201–219): apply
`hexToBin` to the resolved value — the source has no `!resp` guard, so the
timeout sentinel reaches the codec too and faults — then read bit 7 as the
squelch flag and bits 0–3 as the S-meter value. -/
def decodeRxResp (resp : CmdResult) : RxOutcome :=
  let b? := match resp with
    | CmdResult.reply hex => hexToBin hex
    | CmdResult.noReply => none
  match b? with
  | none => RxOutcome.fault
  | some b =>
    let squelched := b &&& 0b10000000 != 0
    let s := b &&& 0b00001111
    let smeter_reading :=
      if s ≤ 9 then "S" ++ toString s
      else "S9+" ++ toString ((s - 9) * 10) ++ "dB"
    RxOutcome.status { smeter_reading := smeter_reading, squelched := squelched }

/-- `getReceiverStatus`: send `[0x00,0x00,0x00,0x00,0xE7]` expecting a
1-byte reply, then decode it with `decodeRxResp`. -/
def getReceiverStatus (st : FT817) (env : Option (List Nat)) :
    RxOutcome × FT817 × List ChanEvent :=
  let (resp, st2, tr) := execute st [0x00, 0x00, 0x00, 0x00, 0xE7] 1 env
  (decodeRxResp resp, st2, tr)

/-- Transmitter status decoded by `getTransmitterStatus`. -/
structure TxStatus where
  pttActive : Bool
  highSWR : Bool
  splitModeOn : Bool
deriving DecidableEq, Repr

/-- Outcome of `getTransmitterStatus`; same shape as `RxOutcome`. -/
inductive TxOutcome where
  /-- The codec faulted (`FormatError`): no status value is produced. -/
  | fault : TxOutcome
  /-- A decoded transmitter status. -/
  | status (s : TxStatus) : TxOutcome
deriving DecidableEq, Repr

/-- The decode step of `getTransmitterStatus` (source lines 231–256):
apply `hexToBin` to the resolved value (again no `!resp` guard), then read
bit 7 inverted as PTT-active, bit 6 as high-SWR, bit 5 as split-mode. -/
def decodeTxResp (resp : CmdResult) : TxOutcome :=
  let b? := match resp with
    | CmdResult.reply hex => hexToBin hex
    | CmdResult.noReply => none
  match b? with
  | none => TxOutcome.fault
  | some b =>
    let pttActive := !(b &&& 0b10000000 != 0)
    let highSWR := b &&& 0b01000000 != 0
    let splitModeOn := b &&& 0b00100000 != 0
    TxOutcome.status { pttActive := pttActive, highSWR := highSWR,
                       splitModeOn := splitModeOn }

/-- `getTransmitterStatus`: send `[0x00,0x00,0x00,0x00,0xF7]` expecting a
1-byte reply, then decode it with `decodeTxResp`. -/
def getTransmitterStatus (st : FT817) (env : Option (List Nat)) :
    TxOutcome × FT817 × List ChanEvent :=
  let (resp, st2, tr) := execute st [0x00, 0x00, 0x00, 0x00, 0xF7] 1 env
  (decodeTxResp resp, st2, tr)

/-! ## Helper lemmas: decimal rendering of naturals -/

theorem toDigitsCore_acc (fuel : Nat) : ∀ (n : Nat) (acc : List Char),
    Nat.toDigitsCore 10 fuel n acc = Nat.toDigitsCore 10 fuel n [] ++ acc := by
  induction fuel with
  | zero => intro n acc; simp [Nat.toDigitsCore]
  | succ fuel ih =>
    intro n acc
    simp only [Nat.toDigitsCore]
    by_cases h : n / 10 = 0
    · simp [h]
    · rw [if_neg h, if_neg h, ih (n / 10) (Nat.digitChar (n % 10) :: acc),
        ih (n / 10) [Nat.digitChar (n % 10)]]
      simp

theorem toDigitsCore_eq_digits (fuel : Nat) : ∀ n : Nat, n < fuel → 0 < n →
    Nat.toDigitsCore 10 fuel n [] = (Nat.digits 10 n).reverse.map Nat.digitChar := by
  induction fuel with
  | zero => omega
  | succ fuel ih =>
    intro n hfuel h0
    simp only [Nat.toDigitsCore]
    by_cases h : n / 10 = 0
    · have hn10 : n < 10 := by omega
      rw [if_pos h, Nat.digits_def' (by norm_num : (1 : Nat) < 10) h0, h]
      simp
    · have hdiv : n / 10 < n := Nat.div_lt_self h0 (by norm_num)
      rw [if_neg h, toDigitsCore_acc,
        ih (n / 10) (by omega) (Nat.pos_of_ne_zero h),
        Nat.digits_def' (by norm_num : (1 : Nat) < 10) h0]
      simp

theorem natToString_data (n : Nat) (h0 : 0 < n) :
    (toString n).data = (Nat.digits 10 n).reverse.map Nat.digitChar := by
  show (Nat.repr n).data = _
  unfold Nat.repr Nat.toDigits
  rw [toDigitsCore_eq_digits (n + 1) n (by omega) h0]
  rfl

theorem natToString_length_le (n : Nat) (h : n < 100000000) :
    (toString n).length ≤ 8 :=
  Nat.repr_length n 8 (by norm_num) (by norm_num; omega)

theorem digitChar_toNat (d : Nat) (h : d < 10) :
    (Nat.digitChar d).toNat = 48 + d := by
  interval_cases d <;> rfl

/-! ## Helper lemmas: BCD encode / hex decode round trip -/

theorem decToHex_mk_pair (x y : Char) :
    decToHex (String.mk [x] ++ String.mk [y]) = 16 * (x.toNat - 48) + (y.toNat - 48) :=
  rfl

theorem decToHex_digitChar (a b : Nat) (ha : a < 10) (hb : b < 10) :
    decToHex (String.mk [Nat.digitChar a] ++ String.mk [Nat.digitChar b]) = 16 * a + b := by
  rw [decToHex_mk_pair, digitChar_toNat a ha, digitChar_toNat b hb]
  omega

theorem byteHex_bcd (a b : Nat) (ha : a < 10) (hb : b < 10) :
    byteHex (16 * a + b) = String.mk [Nat.digitChar a, Nat.digitChar b] := by
  have hdiv : (16 * a + b) / 16 = a := by omega
  have hmod : (16 * a + b) % 16 = b := by omega
  rw [byteHex, hdiv, hmod, Nat.mod_eq_of_lt (show a < 16 by omega)]

theorem padStart8_digits (f : Nat) (hf : f < 100000000) :
    ∃ D : List Nat, D.length = 8 ∧ (∀ x ∈ D, x < 10) ∧
      (padStart8 (toString f)).data = D.map Nat.digitChar := by
  by_cases h0 : f = 0
  · subst h0
    exact ⟨List.replicate 8 0, by decide, by decide, by decide⟩
  · have h0' : 0 < f := Nat.pos_of_ne_zero h0
    have hchar := natToString_data f h0'
    have hlen8 : (toString f).length ≤ 8 := natToString_length_le f hf
    have hdlen : (Nat.digits 10 f).length = (toString f).length := by
      have hd : (toString f).data.length = (toString f).length := rfl
      rw [hchar] at hd
      simpa using hd
    refine ⟨List.replicate (8 - (toString f).length) 0 ++ (Nat.digits 10 f).reverse,
      ?_, ?_, ?_⟩
    · simp [hdlen]
      omega
    · intro x hx
      rcases List.mem_append.mp hx with hx | hx
      · have := List.eq_of_mem_replicate hx
        omega
      · exact Nat.digits_lt_base (by norm_num) (List.mem_reverse.mp hx)
    · simp [padStart8, String.data_append, hchar, List.map_append,
        List.map_replicate, List.map_reverse]
      exact Or.inr rfl

theorem list_len8 (D : List Nat) (hl : D.length = 8) :
    ∃ d0 d1 d2 d3 d4 d5 d6 d7, D = [d0, d1, d2, d3, d4, d5, d6, d7] := by
  cases D with | nil => simp at hl | cons d0 D =>
  cases D with | nil => simp at hl | cons d1 D =>
  cases D with | nil => simp at hl | cons d2 D =>
  cases D with | nil => simp at hl | cons d3 D =>
  cases D with | nil => simp at hl | cons d4 D =>
  cases D with | nil => simp at hl | cons d5 D =>
  cases D with | nil => simp at hl | cons d6 D =>
  cases D with | nil => simp at hl | cons d7 D =>
  cases D with
  | nil => exact ⟨d0, d1, d2, d3, d4, d5, d6, d7, rfl⟩
  | cons d8 D => simp at hl

theorem setFreqFrame_digits (f d0 d1 d2 d3 d4 d5 d6 d7 : Nat)
    (hd : (padStart8 (toString f)).data =
      [d0, d1, d2, d3, d4, d5, d6, d7].map Nat.digitChar)
    (h0 : d0 < 10) (h1 : d1 < 10) (h2 : d2 < 10) (h3 : d3 < 10)
    (h4 : d4 < 10) (h5 : d5 < 10) (h6 : d6 < 10) (h7 : d7 < 10) :
    setFreqFrame f =
      [16 * d0 + d1, 16 * d2 + d3, 16 * d4 + d5, 16 * d6 + d7, 1] := by
  have hs : padStart8 (toString f) =
      String.mk ([d0, d1, d2, d3, d4, d5, d6, d7].map Nat.digitChar) :=
    String.ext hd
  simp only [setFreqFrame]
  rw [hs]
  show [decToHex (String.mk [Nat.digitChar d0] ++ String.mk [Nat.digitChar d1]),
        decToHex (String.mk [Nat.digitChar d2] ++ String.mk [Nat.digitChar d3]),
        decToHex (String.mk [Nat.digitChar d4] ++ String.mk [Nat.digitChar d5]),
        decToHex (String.mk [Nat.digitChar d6] ++ String.mk [Nat.digitChar d7]), 1] = _
  rw [decToHex_digitChar d0 d1 h0 h1, decToHex_digitChar d2 d3 h2 h3,
    decToHex_digitChar d4 d5 h4 h5, decToHex_digitChar d6 d7 h6 h7]

theorem freq_roundtrip (f : Nat) (hf : f < 100000000) :
    substr (hexRender (setFreqFrame f)) 0 8 = padStart8 (toString f) := by
  obtain ⟨D, hD8, hlt, hdata⟩ := padStart8_digits f hf
  obtain ⟨d0, d1, d2, d3, d4, d5, d6, d7, rfl⟩ := list_len8 D hD8
  have hframe := setFreqFrame_digits f d0 d1 d2 d3 d4 d5 d6 d7 hdata
    (hlt d0 (by simp)) (hlt d1 (by simp)) (hlt d2 (by simp)) (hlt d3 (by simp))
    (hlt d4 (by simp)) (hlt d5 (by simp)) (hlt d6 (by simp)) (hlt d7 (by simp))
  have hs : padStart8 (toString f) =
      String.mk ([d0, d1, d2, d3, d4, d5, d6, d7].map Nat.digitChar) :=
    String.ext hdata
  rw [hframe, hs]
  show substr (byteHex (16 * d0 + d1) ++ (byteHex (16 * d2 + d3) ++
      (byteHex (16 * d4 + d5) ++ (byteHex (16 * d6 + d7) ++ (byteHex 1 ++ ""))))) 0 8 = _
  rw [byteHex_bcd d0 d1 (hlt d0 (by simp)) (hlt d1 (by simp)),
    byteHex_bcd d2 d3 (hlt d2 (by simp)) (hlt d3 (by simp)),
    byteHex_bcd d4 d5 (hlt d4 (by simp)) (hlt d5 (by simp)),
    byteHex_bcd d6 d7 (hlt d6 (by simp)) (hlt d7 (by simp))]
  rfl

/-! ## Further helper lemmas -/

theorem setFrequency_valid_eq (valid : Nat → Bool) (st : FT817) (f : Nat)
    (env : Option (List Nat)) (hv : valid f = true) :
    setFrequency valid st f env =
      (SetFreqResult.sent (padStart8 (toString f)),
       { st with executableCommand := setFreqFrame f, parserLen := 1 },
       [ChanEvent.unpipe, ChanEvent.pipe 1, ChanEvent.write (setFreqFrame f)] ++
         (match env with
          | some chunk => [ChanEvent.readChunk chunk]
          | none => [ChanEvent.timeoutFired])) := by
  cases env <;>
    simp [setFrequency, hv, execute, setCommand, setResponseLength,
      executeCommand, getCommand]

theorem hexRender_length (chunk : List Nat) :
    (hexRender chunk).length = 2 * chunk.length := by
  induction chunk with
  | nil => rfl
  | cons b bs ih =>
    show (byteHex b ++ hexRender bs).length = _
    rw [String.length_append, ih]
    simp [byteHex, String.length]
    omega

theorem hexLowerChar (k : Nat) (h : k < 16) :
    ((Nat.digitChar k).isDigit ||
      (97 ≤ (Nat.digitChar k).toNat && (Nat.digitChar k).toNat ≤ 102)) = true := by
  interval_cases k <;> decide

theorem hexRender_all_lower (chunk : List Nat) :
    ((hexRender chunk).data.all fun c =>
      c.isDigit || (97 ≤ c.toNat && c.toNat ≤ 102)) = true := by
  induction chunk with
  | nil => rfl
  | cons b bs ih =>
    show ((byteHex b ++ hexRender bs).data.all _) = true
    rw [String.data_append, List.all_append]
    have h1 := hexLowerChar (b / 16 % 16) (Nat.mod_lt _ (by norm_num))
    have h2 := hexLowerChar (b % 16) (Nat.mod_lt _ (by norm_num))
    simp only [byteHex, List.all, Bool.and_eq_true]
    exact ⟨by simp [h1, h2], ih⟩

/-! ## Claims -/

/-- C1: the claim says that when the channel never delivers a reply,
`getReceiverStatus` resolves to the distinguishable "no reply" sentinel
rather than throwing or returning a decoded status object.  The code does
NOT do this: unlike `getFreqAndMode`, `getReceiverStatus` has no `!resp`
guard, so the timeout sentinel `false` is fed straight into `hexToBin`,
which (per the codec's contract) faults on any input that is not exactly
one hex-encoded byte.  This theorem evaluates the code at the failing
input: the outcome is the codec fault, not a sentinel and not a decoded
status. -/
theorem c1_receiver_timeout_faults (st : FT817) :
    (getReceiverStatus st none).1 = RxOutcome.fault ∧
    ∀ s, (getReceiverStatus st none).1 ≠ RxOutcome.status s := by
  exact ⟨rfl, fun s h => RxOutcome.noConfusion h⟩

/-- C2 counterexample: calling `setFrequency(14575000)` on a channel that
delivers a 1-byte chunk leaves the re-framer configured with chunk size 1
(not 0) and the exchange consumes a reply chunk from the re-framer — so
set-frequency is NOT free of channel reads and its expected reply length
is not 0. -/
theorem c2_setFrequency_reads_channel :
    (setFrequency (fun _ => true) initState 14575000 (some [0])).2.1.parserLen = 1 ∧
    ChanEvent.readChunk [0] ∈
      (setFrequency (fun _ => true) initState 14575000 (some [0])).2.2 := by
  constructor
  · rfl
  · decide

/-- C2 (amended): for every valid frequency, `setFrequency` calls
`execute` with the source's default expected reply length 1 — so the
re-framer is configured for a 1-byte reply and the exchange awaits a
reply chunk or the 1000 ms timeout — but the reply is discarded:
`setFrequency` returns the padded frequency string regardless of what the
channel does. -/
theorem c2_amended_setFrequency_default_reply_length (valid : Nat → Bool)
    (st : FT817) (f : Nat) (env : Option (List Nat)) (hv : valid f = true) :
    (setFrequency valid st f env).2.1.parserLen = 1 ∧
    (∃ tail, (setFrequency valid st f env).2.2 =
      [ChanEvent.unpipe, ChanEvent.pipe 1, ChanEvent.write (setFreqFrame f)] ++ tail) ∧
    (setFrequency valid st f env).1 = SetFreqResult.sent (padStart8 (toString f)) ∧
    (setFrequency valid st f env).1 = (setFrequency valid st f none).1 := by
  rw [setFrequency_valid_eq valid st f env hv, setFrequency_valid_eq valid st f none hv]
  cases env with
  | none => exact ⟨rfl, ⟨[ChanEvent.timeoutFired], rfl⟩, rfl, rfl⟩
  | some chunk => exact ⟨rfl, ⟨[ChanEvent.readChunk chunk], rfl⟩, rfl, rfl⟩

/-- Witness for the amended C2 at a concrete valid frequency and a
replying channel. -/
theorem c2_amended_witness :
    (fun _ : Nat => true) 14575000 = true ∧
    ((setFrequency (fun _ : Nat => true) initState 14575000 (some [0])).2.1.parserLen = 1 ∧
     (∃ tail, (setFrequency (fun _ : Nat => true) initState 14575000 (some [0])).2.2 =
       [ChanEvent.unpipe, ChanEvent.pipe 1,
        ChanEvent.write (setFreqFrame 14575000)] ++ tail) ∧
     (setFrequency (fun _ : Nat => true) initState 14575000 (some [0])).1 =
       SetFreqResult.sent (padStart8 (toString 14575000)) ∧
     (setFrequency (fun _ : Nat => true) initState 14575000 (some [0])).1 =
       (setFrequency (fun _ : Nat => true) initState 14575000 none).1) :=
  ⟨rfl, c2_amended_setFrequency_default_reply_length (fun _ => true) initState
    14575000 (some [0]) rfl⟩

/-- C3: when the validity table accepts 14575000 (the documented default),
`setFrequency 14575000` writes exactly one frame to the channel, the
5 bytes `[0x14, 0x57, 0x50, 0x00, 0x01]`: the BCD pairs of "14", "57",
"50", "00" followed by opcode 0x01. -/
theorem c3_setFrequency_writes_bcd_frame (valid : Nat → Bool) (st : FT817)
    (env : Option (List Nat)) (hv : valid 14575000 = true) :
    writesOf (setFrequency valid st 14575000 env).2.2 =
      [[0x14, 0x57, 0x50, 0x00, 0x01]] := by
  rw [setFrequency_valid_eq valid st 14575000 env hv]
  cases env <;> rfl

/-- Witness for C3 with an accepting table and a silent channel. -/
theorem c3_witness :
    (fun _ : Nat => true) 14575000 = true ∧
    writesOf (setFrequency (fun _ : Nat => true) initState 14575000 none).2.2 =
      [[0x14, 0x57, 0x50, 0x00, 0x01]] :=
  ⟨rfl, c3_setFrequency_writes_bcd_frame (fun _ => true) initState none rfl⟩

/-- C4: for every frequency accepted by the validity table (which, per the
spec's 8-digit frame layout, only accepts values with at most 8 decimal
digits — the table itself lives outside `src/`), BCD-encoding through the
set-frequency frame and slicing the hex-rendered frame's first 8
characters — exactly the frequency/mode decoder's digit-string slicing —
reconstructs the frequency zero-padded to 8 digits; composing with the
actual decoder `getFreqAndMode` gives a record whose `frequency` field is
that padded digit string. -/
theorem c4_encode_decode_roundtrip (valid : Nat → Bool) (f : Nat)
    (htable : ∀ g, valid g = true → g < 100000000) (hf : valid f = true) :
    substr (hexRender (setFreqFrame f)) 0 8 = padStart8 (toString f) ∧
    ∀ (modeName : String → String) (st : FT817), ∃ fm,
      (getFreqAndMode modeName st (some (setFreqFrame f))).1 = some fm ∧
      fm.frequency = padStart8 (toString f) := by
  have h := freq_roundtrip f (htable f hf)
  exact ⟨h, fun modeName st => ⟨_, rfl, h⟩⟩

/-- Witness for C4 at the default frequency with the 8-digit table. -/
theorem c4_witness :
    (∀ g, (fun n : Nat => decide (n < 100000000)) g = true → g < 100000000) ∧
    (fun n : Nat => decide (n < 100000000)) 14575000 = true ∧
    substr (hexRender (setFreqFrame 14575000)) 0 8 = padStart8 (toString 14575000) :=
  ⟨fun g hg => of_decide_eq_true hg, by decide,
   (c4_encode_decode_roundtrip (fun n => decide (n < 100000000)) 14575000
     (fun g hg => of_decide_eq_true hg) (by decide)).1⟩

/-- C5: when the validity table rejects the frequency, `setFrequency`
returns the sentinel `false` ("not sent"), produces no channel event at
all (nothing is built or written), and leaves the session state
unchanged. -/
theorem c5_invalid_frequency_rejected (valid : Nat → Bool) (st : FT817)
    (f : Nat) (env : Option (List Nat)) (hv : valid f = false) :
    setFrequency valid st f env = (SetFreqResult.notSent, st, []) := by
  simp [setFrequency, hv]

/-- Witness for C5 with a rejecting table. -/
theorem c5_witness :
    (fun _ : Nat => false) 14575000 = false ∧
    setFrequency (fun _ : Nat => false) initState 14575000 (some [0]) =
      (SetFreqResult.notSent, initState, []) :=
  ⟨rfl, c5_invalid_frequency_rejected (fun _ => false) initState 14575000
    (some [0]) rfl⟩

set_option maxRecDepth 100000 in
/-- C6: for every 1-byte receiver-status reply `b`, `getReceiverStatus`
decodes squelched = bit 7 of `b`, and with `s` = bits 0–3 the S-meter
reading is `"S" + s` when `s ≤ 9` and `"S9+" + (s-9)*10 + "dB"`
otherwise; in particular reply byte 9 (bit 7 clear, `s` = 9) gives
`{squelched: false, smeter_reading: "S9"}` and reply byte 15 (`s` = 15)
gives `"S9+60dB"`. -/
theorem c6_receiver_status_decode :
    (∀ (b : Fin 256) (st : FT817),
      (getReceiverStatus st (some [b.val])).1 = RxOutcome.status
        { smeter_reading :=
            if (b.val &&& 15) ≤ 9 then "S" ++ toString (b.val &&& 15)
            else "S9+" ++ toString (((b.val &&& 15) - 9) * 10) ++ "dB",
          squelched := Nat.testBit b.val 7 }) ∧
    (∀ st : FT817, (getReceiverStatus st (some [9])).1 =
      RxOutcome.status { smeter_reading := "S9", squelched := false }) ∧
    (∀ st : FT817, (getReceiverStatus st (some [15])).1 =
      RxOutcome.status { smeter_reading := "S9+60dB", squelched := false }) := by
  have h : ∀ b : Fin 256,
      decodeRxResp (CmdResult.reply (hexRender [b.val])) = RxOutcome.status
        { smeter_reading :=
            if (b.val &&& 15) ≤ 9 then "S" ++ toString (b.val &&& 15)
            else "S9+" ++ toString (((b.val &&& 15) - 9) * 10) ++ "dB",
          squelched := Nat.testBit b.val 7 } := by decide
  exact ⟨fun b st => h b, fun st => rfl, fun st => rfl⟩

/-- C7 counterexample: the claim (and the spec's scenario) says byte
`0b00000000` decodes to `{pttActive: true, highSWR: true,
splitModeOn: true}`, but bits 6 and 5 of 0 are clear, so the code decodes
it to `{pttActive: true, highSWR: false, splitModeOn: false}`. -/
theorem c7_zero_byte_counterexample :
    (getTransmitterStatus initState (some [0])).1 =
      TxOutcome.status { pttActive := true, highSWR := false, splitModeOn := false } ∧
    (getTransmitterStatus initState (some [0])).1 ≠
      TxOutcome.status { pttActive := true, highSWR := true, splitModeOn := true } := by
  exact ⟨rfl, by decide⟩

set_option maxRecDepth 100000 in
/-- C7 (amended): for every 1-byte transmitter-status reply `b`,
`getTransmitterStatus` decodes pttActive = NOT bit 7, highSWR = bit 6,
splitModeOn = bit 5; in particular byte `0b00000000` decodes to
`{pttActive: true, highSWR: false, splitModeOn: false}` and byte
`0b10000000` decodes with pttActive false. -/
theorem c7_transmitter_status_decode :
    (∀ (b : Fin 256) (st : FT817),
      (getTransmitterStatus st (some [b.val])).1 = TxOutcome.status
        { pttActive := !Nat.testBit b.val 7,
          highSWR := Nat.testBit b.val 6,
          splitModeOn := Nat.testBit b.val 5 }) ∧
    (∀ st : FT817, (getTransmitterStatus st (some [0b00000000])).1 =
      TxOutcome.status { pttActive := true, highSWR := false, splitModeOn := false }) ∧
    (∀ st : FT817, (getTransmitterStatus st (some [0b10000000])).1 =
      TxOutcome.status { pttActive := false, highSWR := false, splitModeOn := false }) := by
  have h : ∀ b : Fin 256,
      decodeTxResp (CmdResult.reply (hexRender [b.val])) = TxOutcome.status
        { pttActive := !Nat.testBit b.val 7,
          highSWR := Nat.testBit b.val 6,
          splitModeOn := Nat.testBit b.val 5 } := by decide
  exact ⟨fun b st => h b, fun st => rfl, fun st => rfl⟩

/-- C8: a frequency/mode reply whose hex rendering is "1457500003"
decodes to frequency "14575000", mhzs 145, khzs 750, hzs 0, mode id "03"
and the mode table's name for "03"; and for every reply, the decoder
takes the last 2 characters (from position 8) of the hex rendering as the
mode id, the first 8 characters as the frequency digit string, and slices
that string 3/3/2 into the MHz/kHz/Hz integer fields. -/
theorem c8_freq_mode_decode (modeName : String → String) (st : FT817) :
    ((getFreqAndMode modeName st (some [0x14, 0x57, 0x50, 0x00, 0x03])).1 =
      some { frequency := "14575000", mhzs := some 145, khzs := some 750,
             hzs := some 0, mode_id := "03", mode_name := modeName "03" }) ∧
    ∀ bytes : List Nat,
      (hexRender bytes).length = 2 * bytes.length ∧
      ∃ fm, (getFreqAndMode modeName st (some bytes)).1 = some fm ∧
        fm.frequency = substr (hexRender bytes) 0 8 ∧
        fm.mode_id = substrFrom (hexRender bytes) 8 ∧
        fm.mode_name = modeName (substrFrom (hexRender bytes) 8) ∧
        fm.mhzs = jsParseInt (substr (substr (hexRender bytes) 0 8) 0 3) ∧
        fm.khzs = jsParseInt (substr (substr (hexRender bytes) 0 8) 3 6) ∧
        fm.hzs = jsParseInt (substr (substr (hexRender bytes) 0 8) 6 8) := by
  refine ⟨rfl, fun bytes => ⟨hexRender_length bytes, ⟨_, rfl, rfl, rfl, rfl, rfl, rfl, rfl⟩⟩⟩

/-- C9: every call to `execute` with expected reply length `L` detaches
the old re-framer and attaches one with chunk size exactly `L` before the
frame is written, and on return the session's re-framer is still the one
with chunk size `L` — the trace is exactly unpipe, pipe `L`, write,
then the reply or timeout event, with no further framing change. -/
theorem c9_execute_framing_invariant (st : FT817) (cmd : List Nat) (L : Nat)
    (env : Option (List Nat)) :
    (execute st cmd L env).2.1.parserLen = L ∧
    (execute st cmd L env).2.2 =
      [ChanEvent.unpipe, ChanEvent.pipe L, ChanEvent.write cmd] ++
        (match env with
         | some chunk => [ChanEvent.readChunk chunk]
         | none => [ChanEvent.timeoutFired]) := by
  cases env <;> exact ⟨rfl, rfl⟩

set_option maxRecDepth 100000 in
/-- C10: whenever the re-framer delivers a chunk before the timeout,
`execute` resolves to the chunk rendered as a hex string — of length
2 × (byte count), every character a decimal digit or lowercase 'a'–'f' —
not to raw bytes; the frequency/mode decoder consumes this string by
character position, and the 1-byte status decoders recover the reply byte
from its 2-character hex rendering via `hexToBin`. -/
theorem c10_reply_is_lowercase_hex_string (st : FT817) (cmd : List Nat)
    (L : Nat) (chunk : List Nat) :
    (execute st cmd L (some chunk)).1 = CmdResult.reply (hexRender chunk) ∧
    (hexRender chunk).length = 2 * chunk.length ∧
    ((hexRender chunk).data.all fun c =>
      c.isDigit || (97 ≤ c.toNat && c.toNat ≤ 102)) = true ∧
    (∀ modeName : String → String, ∃ fm,
      (getFreqAndMode modeName st (some chunk)).1 = some fm ∧
      fm.frequency = substr (hexRender chunk) 0 8 ∧
      fm.mode_id = substrFrom (hexRender chunk) 8) ∧
    (∀ b : Fin 256, hexToBin (hexRender [b.val]) = some b.val) := by
  refine ⟨rfl, hexRender_length chunk, hexRender_all_lower chunk,
    fun modeName => ⟨_, rfl, rfl, rfl⟩, ?_⟩
  decide
